import Mathlib

/-!
Verification of `mcp_server_image_selector` (Python) against its
natural-language specification, via a shallow embedding in Lean 4.

Numeric conventions of the embedding:
* Python `float` arithmetic is modelled over `ℚ` (exact rational
  arithmetic; all operations exercised here — division, `min`,
  comparison — are exact in the same way on the inputs of interest).
* Python `int(x)` on a float truncates toward zero; this is `pyTrunc`.
* `os.path.join a b` (with `a` an absolute directory and `b` a plain
  file name) is modelled as `a ++ "/" ++ b`.
* Fallible library calls (PIL, PyMuPDF, the file system) are modelled by
  explicit oracles returning `Except String _`; a Python `raise` at such a
  call site is the `Except.error` case.
-/

namespace ImageSelector

/-- Python `int(q)`: truncation toward zero. -/
def pyTrunc (q : ℚ) : ℤ := if 0 ≤ q then ⌊q⌋ else ⌈q⌉

/-- Embedding of `utils.transform_coords` (src/mcp_server_image_selector/utils.py):

```
x1, y1, x2, y2 = coords
if scale_factor == 0:
    raise ValueError("scale_factor must be non-zero")
return (int(x1 / scale_factor), int(y1 / scale_factor),
        int(x2 / scale_factor), int(y2 / scale_factor))
```

The `raise` is the `Except.error` case. -/
def transform_coords (coords : ℚ × ℚ × ℚ × ℚ) (scale_factor : ℚ) :
    Except String (ℤ × ℤ × ℤ × ℤ) :=
  if scale_factor = 0 then
    Except.error "scale_factor must be non-zero"
  else
    Except.ok (pyTrunc (coords.1 / scale_factor), pyTrunc (coords.2.1 / scale_factor),
      pyTrunc (coords.2.2.1 / scale_factor), pyTrunc (coords.2.2.2 / scale_factor))

/-- Embedding of `ImageSelectorGUI.compute_scale` (gui.py, identical copy in
server.py):

```
if img_width <= 0 or img_height <= 0:
    return 1.0
scale_x = canvas_width / img_width
scale_y = canvas_height / img_height
return min(scale_x, scale_y, 1.25)
```

The configured cap in this version of the code is `1.25 = 5/4`. -/
def compute_scale (img_width img_height canvas_width canvas_height : ℚ) : ℚ :=
  if img_width ≤ 0 ∨ img_height ≤ 0 then 1
  else min (min (canvas_width / img_width) (canvas_height / img_height)) (5 / 4)

/-! ### Claims about `transform_coords` and `compute_scale` -/

/-- C1: for every coordinate tuple and every scale factor `s > 0`,
`transform_coords` returns the four quotients truncated toward zero, and it
raises (`Except.error`) exactly when `s = 0`. -/
theorem transform_coords_spec (x1 y1 x2 y2 s : ℚ) :
    (0 < s →
      transform_coords (x1, y1, x2, y2) s =
        Except.ok (pyTrunc (x1 / s), pyTrunc (y1 / s), pyTrunc (x2 / s), pyTrunc (y2 / s))) ∧
    ((∃ e, transform_coords (x1, y1, x2, y2) s = Except.error e) ↔ s = 0) := by
  refine ⟨fun hs => by simp [transform_coords, hs.ne'], ?_, ?_⟩
  · rintro ⟨e, he⟩
    by_contra h
    simp [transform_coords, h] at he
  · intro h
    subst h
    exact ⟨_, rfl⟩

/-- Witness for C1 at concrete inputs: scale 2 on `(3, -3, 5, 7)`, and the
error case at scale 0. -/
theorem transform_coords_spec_witness :
    transform_coords (3, -3, 5, 7) 2 = Except.ok (1, -1, 2, 3) ∧
    (∃ e, transform_coords (3, -3, 5, 7) 0 = Except.error e) := by
  constructor
  · have h := (transform_coords_spec 3 (-3) 5 7 2).1 (by norm_num)
    rw [h]
    norm_num [pyTrunc, Int.floor_eq_iff, Int.ceil_eq_iff]
  · exact ((transform_coords_spec 3 (-3) 5 7 0).2).mpr rfl

/-- C10 (implicit): a negative scale factor is accepted — `transform_coords`
returns normally with the truncated (sign-flipped) quotients; only `s = 0` is
rejected. -/
theorem transform_coords_negative_scale (x1 y1 x2 y2 s : ℚ) (hs : s < 0) :
    transform_coords (x1, y1, x2, y2) s =
      Except.ok (pyTrunc (x1 / s), pyTrunc (y1 / s), pyTrunc (x2 / s), pyTrunc (y2 / s)) := by
  simp [transform_coords, hs.ne]

/-- Witness for C10: scale `-2` on `(3, 4, 5, 6)` yields `(-1, -2, -2, -3)`
(truncation toward zero of `-1.5, -2, -2.5, -3`). -/
theorem transform_coords_negative_scale_witness :
    transform_coords (3, 4, 5, 6) (-2) = Except.ok (-1, -2, -2, -3) := by
  have h := transform_coords_negative_scale 3 4 5 6 (-2) (by norm_num)
  rw [h]
  norm_num [pyTrunc, Int.floor_eq_iff, Int.ceil_eq_iff]

/-- C2: for all positive image and canvas dimensions, `compute_scale` equals
`min(canvas_w/image_w, canvas_h/image_h, 5/4)`, lies in `(0, 5/4]`, and equals
the cap `5/4` whenever the image scaled by `5/4` fits within the canvas. -/
theorem compute_scale_spec (iw ih cw ch : ℚ)
    (hiw : 0 < iw) (hih : 0 < ih) (hcw : 0 < cw) (hch : 0 < ch) :
    compute_scale iw ih cw ch = min (min (cw / iw) (ch / ih)) (5 / 4) ∧
    0 < compute_scale iw ih cw ch ∧
    compute_scale iw ih cw ch ≤ 5 / 4 ∧
    (5 / 4 * iw ≤ cw → 5 / 4 * ih ≤ ch → compute_scale iw ih cw ch = 5 / 4) := by
  have hne : ¬(iw ≤ 0 ∨ ih ≤ 0) := by push_neg; exact ⟨hiw, hih⟩
  have hdef : compute_scale iw ih cw ch = min (min (cw / iw) (ch / ih)) (5 / 4) := by
    simp only [compute_scale, if_neg hne]
  refine ⟨hdef, ?_, ?_, ?_⟩
  · rw [hdef]
    simp only [lt_min_iff]
    exact ⟨⟨div_pos hcw hiw, div_pos hch hih⟩, by norm_num⟩
  · rw [hdef]
    exact min_le_right _ _
  · intro h1 h2
    rw [hdef]
    exact min_eq_right (le_min ((le_div_iff₀ hiw).mpr h1) ((le_div_iff₀ hih).mpr h2))

/-- Witness for C2: a 100×100 image on a 2000×2000 canvas scales by the cap
`5/4`, which is the stated `min` and lies in `(0, 5/4]`. -/
theorem compute_scale_spec_witness :
    compute_scale 100 100 2000 2000 = min (min (2000 / 100) (2000 / 100)) (5 / 4) ∧
    0 < compute_scale 100 100 2000 2000 ∧
    compute_scale 100 100 2000 2000 ≤ 5 / 4 ∧
    compute_scale 100 100 2000 2000 = 5 / 4 := by
  have h := compute_scale_spec 100 100 2000 2000 (by norm_num) (by norm_num)
    (by norm_num) (by norm_num)
  exact ⟨h.1, h.2.1, h.2.2.1, h.2.2.2 (by norm_num) (by norm_num)⟩

/-- C5 counterexample: the claim extends the `1.0` fallback to all four
arguments, but the code only tests the image dimensions. With a positive
10×10 image and a zero-width canvas, `compute_scale 10 10 0 10 = 0 ≠ 1`. -/
theorem compute_scale_nonpositive_counterexample :
    compute_scale 10 10 0 10 = 0 ∧ compute_scale 10 10 0 10 ≠ 1 := by
  have h : compute_scale 10 10 0 10 = 0 := by
    norm_num [compute_scale, min_def]
  exact ⟨h, by rw [h]; norm_num⟩

/-- C5 amended: `compute_scale` returns exactly `1` whenever either *image*
dimension is non-positive (the canvas dimensions are not tested). -/
theorem compute_scale_nonpositive_image_dims (iw ih cw ch : ℚ)
    (h : iw ≤ 0 ∨ ih ≤ 0) :
    compute_scale iw ih cw ch = 1 := by
  unfold compute_scale
  rw [if_pos h]

/-- Witness for the amended C5 at a concrete input: zero image width. -/
theorem compute_scale_nonpositive_image_dims_witness :
    compute_scale 0 5 7 9 = 1 :=
  compute_scale_nonpositive_image_dims 0 5 7 9 (Or.inl le_rfl)

/-! ### Embedding of `export.py` -/

/-- Index of the last occurrence of `c` in `l`, or `-1` when absent
(Python `str.rfind`). -/
def rfindI (l : List Char) (c : Char) : ℤ :=
  match l.reverse.indexOf? c with
  | none => -1
  | some j => (l.length : ℤ) - 1 - (j : ℤ)

/-- Python `os.path.basename p`: the suffix after the last slash. -/
def py_basename (p : String) : String :=
  String.mk (p.data.drop (rfindI p.data '/' + 1).toNat)

/-- Root part of Python `os.path.splitext p`: everything before the last dot,
provided that dot lies after the last slash and is preceded (within the file
name) by at least one non-dot character; otherwise `p` unchanged. -/
def py_splitext_root (p : String) : String :=
  let l := p.data
  let sepIndex := rfindI l '/'
  let dotIndex := rfindI l '.'
  if sepIndex < dotIndex ∧
      ((l.drop (sepIndex + 1).toNat).take (dotIndex - sepIndex - 1).toNat).any
        (fun c => c != '.') then
    String.mk (l.take dotIndex.toNat)
  else p

/-- Python `f"{i:02d}"` for a natural number. -/
def pad2 (i : ℕ) : String :=
  if i < 10 then "0" ++ toString i else toString i

/-- A region as consumed by `export_regions`: the dict
`{"coords": (x1, y1, x2, y2), "mode": mode}`. -/
structure Region where
  coords : ℚ × ℚ × ℚ × ℚ
  mode : String
deriving DecidableEq

/-- The per-region result dict built by `format_export_paths`
(`{"type": "foto", "file": …, "region": i}` or
`{"type": "text", "image_file": …, "text_file": …, "region": i}`). -/
inductive ExportInfo where
  | foto (file : String) (region : ℕ)
  | text (image_file : String) (text_file : String) (region : ℕ)
deriving DecidableEq

/-- Embedding of `export.format_export_paths` (export.py; an identical copy
lives in server.py). `os.path.join` is modelled as slash-concatenation. -/
def format_export_paths (base_name timestamp : String) (i : ℕ) (mode : String)
    (working_dir : String) : ExportInfo :=
  if mode = "foto" then
    ExportInfo.foto
      (working_dir ++ "/" ++ base_name ++ "_" ++ timestamp ++ "_region" ++ pad2 i ++ "_foto.png") i
  else
    ExportInfo.text
      (working_dir ++ "/" ++ base_name ++ "_" ++ timestamp ++ "_region" ++ pad2 i ++ "_text.png")
      (working_dir ++ "/" ++ base_name ++ "_" ++ timestamp ++ "_region" ++ pad2 i ++ "_text.txt")
      i

/-- Oracles for the fallible library calls made by `export_regions`:
`Image.open` (when no pre-loaded image object is passed), `Image.crop`,
`crop.save`, the text-file write, and `pytesseract.image_to_string`.
Each oracle is indexed by the 1-based region number. -/
structure ExportEnv where
  imageProvided : Bool
  openResult : Except String Unit
  cropResult : ℕ → (ℤ × ℤ × ℤ × ℤ) → Except String Unit
  saveResult : ℕ → String → Except String Unit
  writeTextResult : ℕ → String → String → Except String Unit
  ocrResult : ℕ → Except String String
  tesseractAvailable : Bool

/-- The OCR text for region `i`: embedding of the inner
`if TESSERACT_AVAILABLE … try … except` block of `export_regions`, whose own
failures are caught and degrade to placeholder strings. -/
def ocr_text_for (env : ExportEnv) (i : ℕ) : String :=
  if env.tesseractAvailable then
    match env.ocrResult i with
    | Except.ok s => if s.trim ≠ "" then s.trim else "[Kein Text erkannt]"
    | Except.error e => "[OCR-Fehler: " ++ e ++ "]"
  else
    "[Tesseract nicht verfügbar - bitte installieren: pip install pytesseract]"

/-- Content written to the companion text file for region `i`. -/
def text_file_content (i : ℕ) (image_file image_path ocr : String) : String :=
  "Textbereich " ++ toString i ++ "\n" ++ "Bildquelle: " ++ image_file ++ "\n" ++
    "Original: " ++ image_path ++ "\n" ++ "\n" ++ ocr ++ "\n"

/-- Body of the `try:` block of the per-region loop of `export_regions`:
crop at the truncated coordinates, build the output paths; `foto` mode saves
one PNG, `text` mode saves the PNG, runs (caught) OCR and writes the text
file. Any `Except.error` is a raise inside the `try`. -/
def processRegion (env : ExportEnv) (image_path base_name timestamp working_dir : String)
    (i : ℕ) (r : Region) : Except String ExportInfo :=
  let (x1, y1, x2, y2) := r.coords
  match env.cropResult i (pyTrunc x1, pyTrunc y1, pyTrunc x2, pyTrunc y2) with
  | Except.error e => Except.error e
  | Except.ok _ =>
    match format_export_paths base_name timestamp i r.mode working_dir with
    | ExportInfo.foto f j =>
      match env.saveResult i f with
      | Except.error e => Except.error e
      | Except.ok _ => Except.ok (ExportInfo.foto f j)
    | ExportInfo.text imgf txtf j =>
      match env.saveResult i imgf with
      | Except.error e => Except.error e
      | Except.ok _ =>
        match env.writeTextResult i txtf
            (text_file_content i imgf image_path (ocr_text_for env i)) with
        | Except.error e => Except.error e
        | Except.ok _ => Except.ok (ExportInfo.text imgf txtf j)

/-- The `for i, region in enumerate(regions, 1):` loop of `export_regions`:
a region whose `try:` body raises is skipped (its exception is caught and
logged) and the loop continues with the next region. -/
def exportLoop (env : ExportEnv) (image_path base_name timestamp working_dir : String) :
    ℕ → List Region → List ExportInfo
  | _, [] => []
  | i, r :: rs =>
    match processRegion env image_path base_name timestamp working_dir i r with
    | Except.ok info =>
        info :: exportLoop env image_path base_name timestamp working_dir (i + 1) rs
    | Except.error _ => exportLoop env image_path base_name timestamp working_dir (i + 1) rs

/-- The dict returned by `export_regions`. -/
structure ExportResult where
  success : Bool
  exported_count : ℕ
  files : List ExportInfo
  working_dir : String
deriving DecidableEq

/-- Embedding of `export.export_regions`. The timestamp is the
`datetime.now().strftime("%Y%m%d_%H%M%S")` string sampled once at the start
of the call, passed in as a parameter. When no image object is provided,
`Image.open` runs before the loop and may raise (the `Except.error` case). -/
def export_regions (env : ExportEnv) (image_path : String) (regions : List Region)
    (working_dir : String) (timestamp : String) : Except String ExportResult :=
  let base_name := py_splitext_root (py_basename image_path)
  match (if env.imageProvided then Except.ok () else env.openResult) with
  | Except.error e => Except.error e
  | Except.ok _ =>
    let exported_files := exportLoop env image_path base_name timestamp working_dir 1 regions
    Except.ok { success := true, exported_count := exported_files.length,
                files := exported_files, working_dir := working_dir }

/-- The loop result is exactly the successful region results, in order, each
processed at its 1-based index — independent of any earlier failures. -/
theorem exportLoop_eq_filterMap (env : ExportEnv)
    (image_path base_name timestamp working_dir : String) (i : ℕ) (rs : List Region) :
    exportLoop env image_path base_name timestamp working_dir i rs =
      (List.enumFrom i rs).filterMap
        (fun p => (processRegion env image_path base_name timestamp working_dir p.1 p.2).toOption) := by
  induction rs generalizing i with
  | nil => rfl
  | cons r rs ih =>
    simp only [exportLoop, List.enumFrom, List.filterMap_cons]
    cases processRegion env image_path base_name timestamp working_dir i r with
    | ok info => simp [ih, Except.toOption]
    | error e => simp [ih, Except.toOption]

/-- A successful per-region result is exactly the path record built by
`format_export_paths` at that region's 1-based index and mode. -/
theorem processRegion_ok_eq (env : ExportEnv)
    (image_path base_name timestamp working_dir : String) (i : ℕ) (r : Region)
    (info : ExportInfo)
    (h : processRegion env image_path base_name timestamp working_dir i r = Except.ok info) :
    info = format_export_paths base_name timestamp i r.mode working_dir := by
  obtain ⟨⟨x1, y1, x2, y2⟩, mode⟩ := r
  unfold processRegion at h
  simp only at h
  split at h
  · exact absurd h (by simp)
  · split at h
    next hfmt =>
      split at h
      · exact absurd h (by simp)
      · rw [hfmt]
        exact (Except.ok.injEq _ _).mp h.symm
    next hfmt =>
      split at h
      · exact absurd h (by simp)
      · split at h
        · exact absurd h (by simp)
        · rw [hfmt]
          exact (Except.ok.injEq _ _).mp h.symm

/-- Every file record in the loop output arises as a successful
`processRegion` at some index/region pair from the enumeration. -/
theorem mem_exportLoop_processRegion (env : ExportEnv)
    (image_path base_name timestamp working_dir : String) (i : ℕ) (rs : List Region)
    (info : ExportInfo)
    (h : info ∈ exportLoop env image_path base_name timestamp working_dir i rs) :
    ∃ p ∈ List.enumFrom i rs,
      processRegion env image_path base_name timestamp working_dir p.1 p.2 =
        Except.ok info := by
  rw [exportLoop_eq_filterMap] at h
  obtain ⟨p, hp, he⟩ := List.mem_filterMap.mp h
  refine ⟨p, hp, ?_⟩
  cases hq : processRegion env image_path base_name timestamp working_dir p.1 p.2 with
  | ok info2 => rw [hq] at he; simpa [Except.toOption] using he
  | error e => rw [hq] at he; simp [Except.toOption] at he

/-- C3: if cropping or writing a single region raises, that region is skipped
and every remaining region is still processed; the returned dict always has
`success = true` and `exported_count` equal to the length of the returned file
list. (The list of files is exactly the successful regions, in order, each
processed at its own enumeration index — so an earlier failure never affects
later regions.) -/
theorem export_regions_skip_and_continue (env : ExportEnv)
    (image_path working_dir timestamp : String) (regions : List Region)
    (hopen : env.imageProvided = true ∨ env.openResult = Except.ok ()) :
    ∃ res : ExportResult,
      export_regions env image_path regions working_dir timestamp = Except.ok res ∧
      res.success = true ∧
      res.exported_count = res.files.length ∧
      res.files = (List.enumFrom 1 regions).filterMap
        (fun p => (processRegion env image_path (py_splitext_root (py_basename image_path))
          timestamp working_dir p.1 p.2).toOption) := by
  have hX : (if env.imageProvided then Except.ok () else env.openResult) =
      (Except.ok () : Except String Unit) := by
    rcases hopen with h | h
    · rw [if_pos h]
    · by_cases hb : env.imageProvided
      · rw [if_pos hb]
      · rw [if_neg hb]; exact h
  refine ⟨{ success := true,
            exported_count := (exportLoop env image_path (py_splitext_root (py_basename image_path))
              timestamp working_dir 1 regions).length,
            files := exportLoop env image_path (py_splitext_root (py_basename image_path))
              timestamp working_dir 1 regions,
            working_dir := working_dir }, ?_, rfl, rfl, ?_⟩
  · unfold export_regions
    rw [hX]
  · exact exportLoop_eq_filterMap env image_path _ timestamp working_dir 1 regions

/-- Oracle environment in which every library call succeeds. -/
def allOkEnv : ExportEnv :=
  { imageProvided := true
    openResult := Except.ok ()
    cropResult := fun _ _ => Except.ok ()
    saveResult := fun _ _ => Except.ok ()
    writeTextResult := fun _ _ _ => Except.ok ()
    ocrResult := fun _ => Except.ok "hello"
    tesseractAvailable := true }

/-- Oracle environment in which cropping region 1 raises and everything else
succeeds. -/
def failFirstCropEnv : ExportEnv :=
  { imageProvided := true
    openResult := Except.ok ()
    cropResult := fun i _ => if i = 1 then Except.error "crop failed" else Except.ok ()
    saveResult := fun _ _ => Except.ok ()
    writeTextResult := fun _ _ _ => Except.ok ()
    ocrResult := fun _ => Except.ok ""
    tesseractAvailable := false }

/-- Witness for C3: with two regions where cropping the first raises, the
call still returns `success = true`, the second region is exported, and the
count matches the file list. -/
theorem export_regions_skip_and_continue_witness :
    ∃ res : ExportResult,
      export_regions failFirstCropEnv "a.png"
        [⟨(0, 0, 10, 10), "foto"⟩, ⟨(0, 0, 20, 20), "foto"⟩] "/out" "20260101_010203" =
          Except.ok res ∧
      res.success = true ∧
      res.exported_count = res.files.length ∧
      res.files = [ExportInfo.foto "/out/a_20260101_010203_region02_foto.png" 2] := by
  obtain ⟨res, h1, h2, h3, h4⟩ := export_regions_skip_and_continue failFirstCropEnv "a.png"
    "/out" "20260101_010203" [⟨(0, 0, 10, 10), "foto"⟩, ⟨(0, 0, 20, 20), "foto"⟩] (Or.inl rfl)
  refine ⟨res, h1, h2, h3, ?_⟩
  rw [h4]
  decide

/-- C8: every output file of a single `export_regions` call is named
`{base_name}_{timestamp}_region{NN}_{mode}.png` under the output directory,
with the two-digit region index `NN` and the one timestamp string of the
call; a text-mode record additionally carries a companion `.txt` of the same
stem. -/
theorem export_regions_file_naming (env : ExportEnv)
    (image_path working_dir timestamp : String) (regions : List Region)
    (res : ExportResult)
    (hres : export_regions env image_path regions working_dir timestamp = Except.ok res) :
    ∀ info ∈ res.files,
      (∀ f r, info = ExportInfo.foto f r →
        f = working_dir ++ "/" ++ py_splitext_root (py_basename image_path) ++ "_" ++
          timestamp ++ "_region" ++ pad2 r ++ "_foto.png") ∧
      (∀ imgf txtf r, info = ExportInfo.text imgf txtf r →
        imgf = working_dir ++ "/" ++ py_splitext_root (py_basename image_path) ++ "_" ++
          timestamp ++ "_region" ++ pad2 r ++ "_text.png" ∧
        txtf = working_dir ++ "/" ++ py_splitext_root (py_basename image_path) ++ "_" ++
          timestamp ++ "_region" ++ pad2 r ++ "_text.txt") := by
  intro info hinfo
  have hfiles : res.files =
      exportLoop env image_path (py_splitext_root (py_basename image_path)) timestamp
        working_dir 1 regions := by
    unfold export_regions at hres
    split at hres
    · exact absurd hres (by simp)
    · rw [← (Except.ok.injEq _ _).mp hres]
  rw [hfiles] at hinfo
  obtain ⟨p, _, hp⟩ := mem_exportLoop_processRegion env image_path _ timestamp working_dir
    1 regions info hinfo
  have hfmt := processRegion_ok_eq env image_path _ timestamp working_dir p.1 p.2 info hp
  unfold format_export_paths at hfmt
  split at hfmt
  · constructor
    · intro f r hfr
      rw [hfr] at hfmt
      obtain ⟨hf, hr⟩ := ExportInfo.foto.injEq .. ▸ hfmt
      rw [hf, hr]
    · intro imgf txtf r hft
      rw [hft] at hfmt
      exact absurd hfmt (by simp)
  · constructor
    · intro f r hfr
      rw [hfr] at hfmt
      exact absurd hfmt (by simp)
    · intro imgf txtf r hft
      rw [hft] at hfmt
      obtain ⟨h1, h2, h3⟩ := ExportInfo.text.injEq .. ▸ hfmt
      exact ⟨h1 ▸ h3 ▸ rfl, h2 ▸ h3 ▸ rfl⟩

/-- Witness for C8: a one-region text export; both output paths match the
naming scheme at index 01 with the shared timestamp. -/
theorem export_regions_file_naming_witness :
    "/out/scan_20260101_010203_region01_text.png" =
      "/out" ++ "/" ++ py_splitext_root (py_basename "scan.png") ++ "_" ++
        "20260101_010203" ++ "_region" ++ pad2 1 ++ "_text.png" ∧
    "/out/scan_20260101_010203_region01_text.txt" =
      "/out" ++ "/" ++ py_splitext_root (py_basename "scan.png") ++ "_" ++
        "20260101_010203" ++ "_region" ++ pad2 1 ++ "_text.txt" := by
  have h := export_regions_file_naming allOkEnv "scan.png" "/out" "20260101_010203"
    [⟨(0, 0, 10, 10), "text"⟩]
    { success := true, exported_count := 1,
      files := [ExportInfo.text "/out/scan_20260101_010203_region01_text.png"
        "/out/scan_20260101_010203_region01_text.txt" 1],
      working_dir := "/out" }
    rfl
  exact (h (ExportInfo.text "/out/scan_20260101_010203_region01_text.png"
    "/out/scan_20260101_010203_region01_text.txt" 1) (by decide)).2 _ _ _ rfl

/-! ### Embedding of `gui.py` (`ImageSelectorGUI`)

Only the state the verified methods read or write is modelled. A PIL image
is tracked by its pixel dimensions (the spec declares the imaging library's
pixel algorithms out of scope). The `images_data` list holds one entry per
loaded image; the Python property accessors dispatch on
`current_image_index`, which the class keeps within range whenever the list
is non-empty (the getters below return the Python `if self.images_data:`
fallbacks otherwise). -/

/-- A PIL image, tracked by its size. -/
structure PILImage where
  width : ℤ
  height : ℤ
deriving DecidableEq

/-- `Image.rotate(angle, expand=True)` on the sizes for the three angles the
code passes (`±90` swap the bounding box, `180` keeps it). -/
def pilRotateExpand (img : PILImage) (angle : ℤ) : PILImage :=
  if angle = 90 ∨ angle = -90 then { width := img.height, height := img.width }
  else img

/-- A saved region dict `{"coords": …, "mode": …, "rect_id": …}`. -/
structure GuiRegion where
  coords : ℚ × ℚ × ℚ × ℚ
  mode : String
  rect_id : Option ℕ
deriving DecidableEq

/-- The per-image entry of `images_data` (fields the verified methods use). -/
structure ImageData where
  original_image : Option PILImage
  scale_factor : ℚ
  regions : List GuiRegion
deriving DecidableEq

/-- The `ImageSelectorGUI` instance state used by the verified methods.
`canvas_winfo_width`/`canvas_winfo_height` are what
`canvas.winfo_width()`/`winfo_height()` report in `_display_image`. -/
structure GuiState where
  create_ui : Bool
  images_data : List ImageData
  current_image_index : ℕ
  image : Option PILImage
  start_x : Option ℚ
  start_y : Option ℚ
  current_rect : Option ℕ
  selection_mode : String
  current_selection : Option (ℚ × ℚ × ℚ × ℚ)
  canvas_winfo_width : ℤ
  canvas_winfo_height : ℤ
deriving DecidableEq

/-- `self.images_data[self.current_image_index]`, or `none` when the list is
empty (the properties return their fallback then). -/
def currentData (st : GuiState) : Option ImageData :=
  st.images_data[st.current_image_index]?

/-- Shared shape of the property setters: write one field of the current
entry; no-op when `images_data` is empty. -/
def setImageData (st : GuiState) (f : ImageData → ImageData) : GuiState :=
  match currentData st with
  | some d => { st with images_data := st.images_data.set st.current_image_index (f d) }
  | none => st

/-- Property `original_image` (getter). -/
def GuiState.original_image (st : GuiState) : Option PILImage :=
  match currentData st with
  | some d => d.original_image
  | none => none

/-- Property `original_image` (setter). -/
def GuiState.set_original_image (st : GuiState) (v : Option PILImage) : GuiState :=
  setImageData st (fun d => { d with original_image := v })

/-- Property `scale_factor` (getter; fallback `1.0`). -/
def GuiState.scale_factor (st : GuiState) : ℚ :=
  match currentData st with
  | some d => d.scale_factor
  | none => 1

/-- Property `scale_factor` (setter). -/
def GuiState.set_scale_factor (st : GuiState) (v : ℚ) : GuiState :=
  setImageData st (fun d => { d with scale_factor := v })

/-- Property `regions` (getter; fallback the empty list). -/
def GuiState.regions (st : GuiState) : List GuiRegion :=
  match currentData st with
  | some d => d.regions
  | none => []

/-- Property `regions` (setter). -/
def GuiState.set_regions (st : GuiState) (v : List GuiRegion) : GuiState :=
  setImageData st (fun d => { d with regions := v })

/-- Embedding of `_display_image`: recompute the scale factor against the
canvas's rendered size (falling back to 1600×1280 when the canvas reports
`<= 1`, i.e. is not laid out yet) and replace the resized display buffer.
The canvas/photo widget operations have no modelled state. -/
def display_image (st : GuiState) : GuiState :=
  match GuiState.original_image st with
  | none => st
  | some img =>
    let canvas_width : ℤ := if st.canvas_winfo_width ≤ 1 then 1600 else st.canvas_winfo_width
    let canvas_height : ℤ := if st.canvas_winfo_height ≤ 1 then 1280 else st.canvas_winfo_height
    let scale := compute_scale (img.width : ℚ) (img.height : ℚ) (canvas_width : ℚ) (canvas_height : ℚ)
    let st1 := GuiState.set_scale_factor st scale
    { st1 with image := some { width := pyTrunc ((img.width : ℚ) * scale),
                               height := pyTrunc ((img.height : ℚ) * scale) } }

/-- The angle dispatch at the top of `rotate_image`: 90° right is
`rotate(-90)` in PIL, 90° left is `rotate(90)`, 180° is `rotate(180)`;
any other angle leaves the buffer untouched. -/
def rotate_buffer (st : GuiState) (img : PILImage) (angle : ℤ) : GuiState :=
  if angle = 90 then GuiState.set_original_image st (some (pilRotateExpand img (-90)))
  else if angle = -90 then GuiState.set_original_image st (some (pilRotateExpand img 90))
  else if angle = 180 then GuiState.set_original_image st (some (pilRotateExpand img 180))
  else st

/-- The `if self.regions: … self.regions = []` block of `rotate_image`. -/
def rotate_clear_regions (st : GuiState) : GuiState :=
  if (GuiState.regions st).isEmpty then st else GuiState.set_regions st []

/-- The display refresh at the end of `rotate_image`: `_display_image` when
the GUI exists, otherwise the fixed 1600×1280 fallback recomputation. -/
def rotate_refresh (st : GuiState) : GuiState :=
  if st.create_ui then
    display_image st
  else
    match GuiState.original_image st with
    | none => st
    | some img2 =>
      let scale := compute_scale (img2.width : ℚ) (img2.height : ℚ) 1600 1280
      let st4 := GuiState.set_scale_factor st scale
      { st4 with image := some { width := pyTrunc ((img2.width : ℚ) * scale),
                                 height := pyTrunc ((img2.height : ℚ) * scale) } }

/-- Embedding of `rotate_image`: no-op without a loaded image; otherwise
rotate the pixel buffer (90° right is `rotate(-90)` in PIL), clear the
pending rectangle and selection, discard all saved regions of the current
image, then refresh the display (via `_display_image` with the GUI, or with
the fixed 1600×1280 canvas fallback without it). -/
def rotate_image (st : GuiState) (angle : ℤ) : GuiState :=
  match GuiState.original_image st with
  | none => st
  | some img =>
    rotate_refresh
      (rotate_clear_regions
        { (rotate_buffer st img angle) with current_rect := none, current_selection := none })

/-- Embedding of `on_mouse_up`: guarded on a displayed image and a recorded
anchor; normalizes the drag rectangle per axis and keeps it as the pending
selection only when both dimensions exceed 5 display pixels, otherwise
discards rectangle and selection. (`start_y` is always set together with
`start_x` by `on_mouse_down`.) -/
def on_mouse_up (st : GuiState) (end_x end_y : ℚ) : GuiState :=
  match st.image, st.start_x, st.start_y with
  | some _, some sx, some sy =>
    let x1 := min sx end_x
    let y1 := min sy end_y
    let x2 := max sx end_x
    let y2 := max sy end_y
    if 5 < |x2 - x1| ∧ 5 < |y2 - y1| then
      { st with current_selection := some (x1, y1, x2, y2) }
    else
      { st with current_rect := none, current_selection := none }
  | _, _, _ => st

/-- Embedding of `save_current_selection`: warns and changes nothing without
a pending selection; otherwise appends a region tagged with the active mode
and the preview rectangle handle, then clears the pending state. -/
def save_current_selection (st : GuiState) : GuiState :=
  match st.current_selection with
  | none => st
  | some sel =>
    let region : GuiRegion :=
      { coords := sel, mode := st.selection_mode, rect_id := st.current_rect }
    let st1 := GuiState.set_regions st (GuiState.regions st ++ [region])
    { st1 with current_rect := none, current_selection := none }

/-- The current entry after a property write is the written entry. -/
theorem currentData_setImageData (st : GuiState) (f : ImageData → ImageData) :
    currentData (setImageData st f) = (currentData st).map f := by
  unfold currentData setImageData
  cases hd : st.images_data[st.current_image_index]? with
  | none => simp [currentData, hd]
  | some d =>
    have hlt : st.current_image_index < st.images_data.length :=
      (List.getElem?_eq_some.mp hd).1
    simp [currentData, hd, List.getElem?_set_eq_of_lt _ hlt]

/-- Property writes do not move `current_selection`. -/
theorem current_selection_setImageData (st : GuiState) (f : ImageData → ImageData) :
    (setImageData st f).current_selection = st.current_selection := by
  unfold setImageData
  cases currentData st <;> rfl

/-- After `self.regions = []` the `regions` property reads back empty. -/
theorem regions_set_regions_nil (st : GuiState) :
    GuiState.regions (GuiState.set_regions st []) = [] := by
  unfold GuiState.regions GuiState.set_regions
  rw [currentData_setImageData]
  cases currentData st <;> simp

/-- Every region readable after `self.regions = v` comes from `v`. -/
theorem mem_regions_set_regions (st : GuiState) (v : List GuiRegion) (r : GuiRegion)
    (h : r ∈ GuiState.regions (GuiState.set_regions st v)) : r ∈ v := by
  unfold GuiState.regions GuiState.set_regions at h
  rw [currentData_setImageData] at h
  cases hd : currentData st with
  | none => rw [hd] at h; simp at h
  | some d => rw [hd] at h; simpa using h

/-- Writing the scale factor leaves the `regions` property unchanged. -/
theorem regions_set_scale_factor (st : GuiState) (v : ℚ) :
    GuiState.regions (GuiState.set_scale_factor st v) = GuiState.regions st := by
  unfold GuiState.regions GuiState.set_scale_factor
  rw [currentData_setImageData]
  cases currentData st <;> simp

/-- The region-clearing block of `rotate_image` empties the `regions`
property whatever its previous value. -/
theorem regions_rotate_clear_regions (st : GuiState) :
    GuiState.regions (rotate_clear_regions st) = [] := by
  unfold rotate_clear_regions
  split
  next h => exact List.isEmpty_iff.mp h
  next => exact regions_set_regions_nil st

/-- `rotate_clear_regions` does not move `current_selection`. -/
theorem current_selection_rotate_clear_regions (st : GuiState) :
    (rotate_clear_regions st).current_selection = st.current_selection := by
  unfold rotate_clear_regions
  split
  · rfl
  · exact current_selection_setImageData st _

/-- The display refresh only rewrites scale factor and display buffer: the
`regions` property is unchanged. -/
theorem regions_display_image (st : GuiState) :
    GuiState.regions (display_image st) = GuiState.regions st := by
  unfold display_image
  split
  · rfl
  · show GuiState.regions (GuiState.set_scale_factor st _) = _
    exact regions_set_scale_factor st _

/-- The display refresh does not move `current_selection`. -/
theorem current_selection_display_image (st : GuiState) :
    (display_image st).current_selection = st.current_selection := by
  unfold display_image
  split
  · rfl
  · exact current_selection_setImageData st _

/-- The final refresh step of `rotate_image` leaves `regions` unchanged. -/
theorem regions_rotate_refresh (st : GuiState) :
    GuiState.regions (rotate_refresh st) = GuiState.regions st := by
  unfold rotate_refresh
  split
  · exact regions_display_image st
  · split
    · rfl
    · show GuiState.regions (GuiState.set_scale_factor st _) = _
      exact regions_set_scale_factor st _

/-- The final refresh step of `rotate_image` does not move
`current_selection`. -/
theorem current_selection_rotate_refresh (st : GuiState) :
    (rotate_refresh st).current_selection = st.current_selection := by
  unfold rotate_refresh
  split
  · exact current_selection_display_image st
  · split
    · rfl
    · exact current_selection_setImageData st _

/-- C4: with an image loaded, rotating by any supported angle (+90°, −90°,
180°) leaves the saved-regions list of that image empty and the pending
selection cleared. -/
theorem rotate_image_discards_selection_state (st : GuiState) (img : PILImage) (angle : ℤ)
    (himg : GuiState.original_image st = some img)
    (_hangle : angle = 90 ∨ angle = -90 ∨ angle = 180) :
    GuiState.regions (rotate_image st angle) = [] ∧
    (rotate_image st angle).current_selection = none := by
  unfold rotate_image
  split
  next h => exact absurd (himg.symm.trans h) (by simp)
  next img2 h =>
    constructor
    · rw [regions_rotate_refresh]
      exact regions_rotate_clear_regions _
    · rw [current_selection_rotate_refresh, current_selection_rotate_clear_regions]

/-- A concrete GUI state: one loaded 100×50 image carrying one saved region,
a pending selection and a preview rectangle. -/
def rotateWitnessState : GuiState :=
  { create_ui := false
    images_data := [{ original_image := some { width := 100, height := 50 }
                      scale_factor := 1
                      regions := [{ coords := (0, 0, 10, 10), mode := "foto", rect_id := some 1 }] }]
    current_image_index := 0
    image := some { width := 100, height := 50 }
    start_x := none
    start_y := none
    current_rect := some 1
    selection_mode := "foto"
    current_selection := some (0, 0, 10, 10)
    canvas_winfo_width := 0
    canvas_winfo_height := 0 }

/-- Witness for C4: rotating the concrete state by +90° empties its region
list and clears the pending selection. -/
theorem rotate_image_discards_selection_state_witness :
    GuiState.regions (rotate_image rotateWitnessState 90) = [] ∧
    (rotate_image rotateWitnessState 90).current_selection = none :=
  rotate_image_discards_selection_state rotateWitnessState { width := 100, height := 50 } 90
    rfl (Or.inl rfl)

/-- C7: after a mouse-up over a displayed image with a recorded anchor, every
region present once the selection is saved is either a previously saved
region or has normalized coordinates with `x1 < x2`, `y1 < y2`,
`x2 - x1 > 5` and `y2 - y1 > 5`; a drag whose normalized rectangle has
either dimension `≤ 5` is discarded and never becomes a saved region. -/
theorem mouse_up_save_selection_invariant (st : GuiState) (img : PILImage) (sx sy ex ey : ℚ)
    (himg : st.image = some img) (hsx : st.start_x = some sx) (hsy : st.start_y = some sy) :
    (∀ r ∈ GuiState.regions (save_current_selection (on_mouse_up st ex ey)),
        r ∈ GuiState.regions st ∨
          ∃ x1 y1 x2 y2, r.coords = (x1, y1, x2, y2) ∧
            x1 < x2 ∧ y1 < y2 ∧ 5 < x2 - x1 ∧ 5 < y2 - y1) ∧
    ((max sx ex - min sx ex ≤ 5 ∨ max sy ey - min sy ey ≤ 5) →
      GuiState.regions (save_current_selection (on_mouse_up st ex ey)) =
        GuiState.regions st) := by
  have hmu : on_mouse_up st ex ey =
      (if 5 < |max sx ex - min sx ex| ∧ 5 < |max sy ey - min sy ey| then
        { st with current_selection := some (min sx ex, min sy ey, max sx ex, max sy ey) }
      else { st with current_rect := none, current_selection := none }) := by
    unfold on_mouse_up
    rw [himg, hsx, hsy]
  rw [hmu]
  by_cases hcond : 5 < |max sx ex - min sx ex| ∧ 5 < |max sy ey - min sy ey|
  · rw [if_pos hcond]
    obtain ⟨hx, hy⟩ := hcond
    rw [abs_of_nonneg (sub_nonneg.mpr min_le_max)] at hx
    rw [abs_of_nonneg (sub_nonneg.mpr min_le_max)] at hy
    constructor
    · intro r hr
      have hr2 : r ∈ GuiState.regions st ++
          [⟨(min sx ex, min sy ey, max sx ex, max sy ey), st.selection_mode,
            st.current_rect⟩] :=
        mem_regions_set_regions _ _ _ hr
      rcases List.mem_append.mp hr2 with h | h
      · exact Or.inl h
      · rw [List.mem_singleton] at h
        subst h
        exact Or.inr ⟨min sx ex, min sy ey, max sx ex, max sy ey, rfl,
          by linarith, by linarith, hx, hy⟩
    · intro hdims
      rcases hdims with h | h <;> linarith
  · rw [if_neg hcond]
    exact ⟨fun r hr => Or.inl hr, fun _ => rfl⟩

/-- A concrete GUI state with a loaded image, the drag anchor at the origin,
and no saved regions. -/
def mouseWitnessState : GuiState :=
  { create_ui := false
    images_data := [{ original_image := some { width := 100, height := 50 }
                      scale_factor := 1
                      regions := [] }]
    current_image_index := 0
    image := some { width := 100, height := 50 }
    start_x := some 0
    start_y := some 0
    current_rect := none
    selection_mode := "foto"
    current_selection := none
    canvas_winfo_width := 0
    canvas_winfo_height := 0 }

/-- Witness for C7: a degenerate 3×4-pixel drag from the origin is discarded
— the saved-regions list is unchanged by mouse-up plus save. -/
theorem mouse_up_save_selection_invariant_witness :
    GuiState.regions (save_current_selection (on_mouse_up mouseWitnessState 3 4)) =
      GuiState.regions mouseWitnessState := by
  apply (mouse_up_save_selection_invariant mouseWitnessState { width := 100, height := 50 }
    0 0 3 4 rfl rfl rfl).2
  left
  rw [max_eq_right (by norm_num : (0:ℚ) ≤ 3), min_eq_left (by norm_num : (0:ℚ) ≤ 3)]
  norm_num

/-! ### Embedding of `pdf_utils.py` -/

/-- The opened PDF document as `extract_image_from_pdf` inspects it: its page
count (`len(doc)`) and the xrefs of the first page's embedded raster images
(`page.get_images(full=True)`, first tuple component). -/
structure PdfDoc where
  pageCount : ℕ
  firstPageImages : List ℕ
deriving DecidableEq

/-- Oracles for the PyMuPDF and file-system calls inside the `try:` block of
`extract_image_from_pdf`: opening the document, extracting an embedded image
and writing its bytes, and rendering/saving the first page's pixmap. (The
`fitz is None` import guard sits before the `try:` and is out of scope here:
the library is assumed installed.) -/
structure PdfEnv where
  openResult : Except String PdfDoc
  extractAndWriteResult : ℕ → Except String Unit
  renderAndSaveResult : Except String Unit

/-- Embedding of `pdf_utils.extract_image_from_pdf`. Every `Except.error` of
an oracle is an exception inside the `try:`, caught by the
`except Exception` handler, which logs to stderr and returns `None`; a
zero-page document returns `None` directly. `tmp_dir` is what
`create_tmp_dir_if_needed()` returns. -/
def extract_image_from_pdf (env : PdfEnv) (pdf_path tmp_dir : String) : Option String :=
  match env.openResult with
  | Except.error _ => none
  | Except.ok doc =>
    if doc.pageCount = 0 then none
    else
      let base_name := py_splitext_root (py_basename pdf_path)
      match doc.firstPageImages with
      | xref :: _ =>
        match env.extractAndWriteResult xref with
        | Except.ok _ => some (tmp_dir ++ "/" ++ base_name ++ "_extracted.png")
        | Except.error _ => none
      | [] =>
        match env.renderAndSaveResult with
        | Except.ok _ => some (tmp_dir ++ "/" ++ base_name ++ "_rendered.png")
        | Except.error _ => none

/-- C6: `extract_image_from_pdf` yields no result (`none`) on a zero-page
document, and every library-level failure — at open, at embedded-image
extraction/write, or at page rendering — is caught and surfaces as `none`
to the caller rather than as an exception (the embedding is a total
function into `Option`). -/
theorem extract_image_from_pdf_no_result (env : PdfEnv) (pdf_path tmp_dir : String) :
    (∀ doc, env.openResult = Except.ok doc → doc.pageCount = 0 →
      extract_image_from_pdf env pdf_path tmp_dir = none) ∧
    (∀ e, env.openResult = Except.error e →
      extract_image_from_pdf env pdf_path tmp_dir = none) ∧
    (∀ doc xref rest e, env.openResult = Except.ok doc →
      doc.firstPageImages = xref :: rest →
      env.extractAndWriteResult xref = Except.error e →
      extract_image_from_pdf env pdf_path tmp_dir = none) ∧
    (∀ doc e, env.openResult = Except.ok doc → doc.firstPageImages = [] →
      env.renderAndSaveResult = Except.error e →
      extract_image_from_pdf env pdf_path tmp_dir = none) := by
  refine ⟨?_, ?_, ?_, ?_⟩
  · intro doc h0 hpc
    simp [extract_image_from_pdf, h0, hpc]
  · intro e h
    simp [extract_image_from_pdf, h]
  · intro doc xref rest e hok himgs herr
    by_cases hpc : doc.pageCount = 0 <;>
      simp [extract_image_from_pdf, hok, hpc, himgs, herr]
  · intro doc e hok himgs herr
    by_cases hpc : doc.pageCount = 0 <;>
      simp [extract_image_from_pdf, hok, hpc, himgs, herr]

/-- A PDF whose document opens with zero pages. -/
def pdfEmptyEnv : PdfEnv :=
  { openResult := Except.ok { pageCount := 0, firstPageImages := [] }
    extractAndWriteResult := fun _ => Except.ok ()
    renderAndSaveResult := Except.ok () }

/-- A PDF whose open call raises. -/
def pdfOpenFailEnv : PdfEnv :=
  { openResult := Except.error "cannot open document"
    extractAndWriteResult := fun _ => Except.ok ()
    renderAndSaveResult := Except.ok () }

/-- Witness for C6: concrete zero-page and failing-open runs both yield
`none`. -/
theorem extract_image_from_pdf_no_result_witness :
    extract_image_from_pdf pdfEmptyEnv "doc.pdf" "/work/tmp" = none ∧
    extract_image_from_pdf pdfOpenFailEnv "doc.pdf" "/work/tmp" = none :=
  ⟨(extract_image_from_pdf_no_result pdfEmptyEnv "doc.pdf" "/work/tmp").1 _ rfl rfl,
   (extract_image_from_pdf_no_result pdfOpenFailEnv "doc.pdf" "/work/tmp").2.1 _ rfl⟩

/-! ### Embedding of `utils.cleanup_tmp_dir` -/

/-- An entry of the temp directory as `os.listdir` reports it, with its
`os.path.isfile` status. -/
structure DirEntry where
  name : String
  isFile : Bool
deriving DecidableEq

/-- The temp directory's file-system state. -/
structure TmpDir where
  present : Bool
  entries : List DirEntry
deriving DecidableEq

/-- Effect of `utils.create_tmp_dir_if_needed` on the temp directory:
`os.makedirs(tmp_dir, exist_ok=True)` creates it empty when missing and
changes nothing otherwise. -/
def create_tmp_dir_if_needed (d : TmpDir) : TmpDir :=
  if d.present then d else { present := true, entries := [] }

/-- The `for file in os.listdir(tmp_dir)` loop of `cleanup_tmp_dir`:
non-files are left alone; for a file, `os.remove` either succeeds (the oracle
`removeFails` is false for its name) or raises, which is caught, logged to
stderr, and the loop continues. -/
def removeFilesLoop (removeFails : String → Bool) : List DirEntry → List DirEntry
  | [] => []
  | e :: rest =>
    if e.isFile then
      if removeFails e.name then e :: removeFilesLoop removeFails rest
      else removeFilesLoop removeFails rest
    else e :: removeFilesLoop removeFails rest

/-- Embedding of `utils.cleanup_tmp_dir`: ensure the directory exists (after
which the `os.path.exists` test is true), then run the removal loop over its
entries. -/
def cleanup_tmp_dir (removeFails : String → Bool) (d : TmpDir) : TmpDir :=
  let d1 := create_tmp_dir_if_needed d
  { d1 with entries := removeFilesLoop removeFails d1.entries }

/-- The removal loop keeps exactly the non-files and the files whose removal
raised. -/
theorem removeFilesLoop_eq_filter (removeFails : String → Bool) (l : List DirEntry) :
    removeFilesLoop removeFails l =
      l.filter (fun e => ! e.isFile || removeFails e.name) := by
  induction l with
  | nil => rfl
  | cons e rest ih =>
    by_cases hf : e.isFile <;> by_cases hr : removeFails e.name <;>
      simp [removeFilesLoop, List.filter_cons, hf, hr, ih]

/-- C9: `cleanup_tmp_dir` (i) with no deletion errors removes every file,
(ii) leaves the directory itself present, (iii) leaves all subdirectory
entries in place, (iv) is idempotent on an already-empty or missing temp
directory, and (v) is non-fatal on per-file deletion errors: every file
whose own removal does not raise is still removed, whatever happens to the
others. -/
theorem cleanup_tmp_dir_spec (removeFails : String → Bool) (d : TmpDir) :
    ((∀ n, removeFails n = false) →
      (cleanup_tmp_dir removeFails d).entries =
        (create_tmp_dir_if_needed d).entries.filter (fun e => ! e.isFile)) ∧
    (cleanup_tmp_dir removeFails d).present = true ∧
    (cleanup_tmp_dir removeFails d).entries.filter (fun e => ! e.isFile) =
      (create_tmp_dir_if_needed d).entries.filter (fun e => ! e.isFile) ∧
    ((d.present = false ∨ d.entries = []) →
      cleanup_tmp_dir removeFails (cleanup_tmp_dir removeFails d) =
        cleanup_tmp_dir removeFails d) ∧
    (∀ e, e ∈ (create_tmp_dir_if_needed d).entries → e.isFile = true →
      removeFails e.name = false →
      e ∉ (cleanup_tmp_dir removeFails d).entries) := by
  obtain ⟨p, es⟩ := d
  refine ⟨?_, ?_, ?_, ?_, ?_⟩
  · intro hall
    simp only [cleanup_tmp_dir, removeFilesLoop_eq_filter]
    exact List.filter_congr (fun e _ => by rw [hall e.name]; simp)
  · unfold cleanup_tmp_dir create_tmp_dir_if_needed
    by_cases hp : p <;> simp [hp]
  · simp only [cleanup_tmp_dir, removeFilesLoop_eq_filter, List.filter_filter]
    exact List.filter_congr (fun e _ => by cases hf : e.isFile <;> simp [hf])
  · intro h
    rcases h with h | h <;> simp_all [cleanup_tmp_dir, create_tmp_dir_if_needed,
      removeFilesLoop]
  · intro e hmem hfile hok
    simp only [cleanup_tmp_dir, removeFilesLoop_eq_filter]
    intro hcontra
    have := (List.mem_filter.mp hcontra).2
    rw [hfile, hok] at this
    simp at this

/-- A temp directory holding two files and a subdirectory. -/
def tmpWitnessDir : TmpDir :=
  { present := true
    entries := [{ name := "a.png", isFile := true }, { name := "sub", isFile := false },
                { name := "b.txt", isFile := true }] }

/-- A missing temp directory. -/
def tmpMissingDir : TmpDir :=
  { present := false, entries := [] }

/-- Removal raises exactly for `a.png`. -/
def removeFailsA (n : String) : Bool := n == "a.png"

/-- Witness for C9 at concrete states: error-free cleanup leaves only the
subdirectory; the directory survives; cleanup of a missing directory is
idempotent; and with `a.png` failing to delete, `b.txt` is still removed. -/
theorem cleanup_tmp_dir_spec_witness :
    (cleanup_tmp_dir (fun _ => false) tmpWitnessDir).entries =
      [{ name := "sub", isFile := false }] ∧
    (cleanup_tmp_dir (fun _ => false) tmpWitnessDir).present = true ∧
    cleanup_tmp_dir (fun _ => false) (cleanup_tmp_dir (fun _ => false) tmpMissingDir) =
      cleanup_tmp_dir (fun _ => false) tmpMissingDir ∧
    ({ name := "b.txt", isFile := true } : DirEntry) ∉
      (cleanup_tmp_dir removeFailsA tmpWitnessDir).entries := by
  refine ⟨?_, ?_, ?_, ?_⟩
  · rw [(cleanup_tmp_dir_spec (fun _ => false) tmpWitnessDir).1 (fun _ => rfl)]
    decide
  · exact (cleanup_tmp_dir_spec (fun _ => false) tmpWitnessDir).2.1
  · exact (cleanup_tmp_dir_spec (fun _ => false) tmpMissingDir).2.2.2.1 (Or.inl rfl)
  · exact (cleanup_tmp_dir_spec removeFailsA tmpWitnessDir).2.2.2.2 _ (by decide) rfl rfl

end ImageSelector
